import Mathlib

/-!
Verification of the health-insurance comparison calculator
(`health_insurance.py`).

The cost model is a pure function per plan.  Python float arithmetic is
embedded as exact rational arithmetic over `ℚ`; all numeric plan fields
and all numeric arguments (`total_expenses`, `months`, `visits`,
`tax_bracket`) are rationals.  CSV row access is embedded as lookup in an
association list, where a missing key corresponds to Python's `KeyError`
(the whole construction fails) and a present key maps to an optional
string cell (`none` corresponds to a `None` cell value produced by
`csv.DictReader` for a row shorter than the header).
-/

/-- A CSV row as produced by `csv.DictReader`: an association list from
column names (the header) to cell values.  A cell is `none` when the row
is shorter than the header (`DictReader` fills missing values with
`None`); looking up a column that is not in the list at all corresponds
to a `KeyError`. -/
abbrev Row : Type := List (String × Option String)

/-- Value of a decimal digit character, `none` for any other character. -/
def digitVal? (c : Char) : Option ℕ :=
  if 48 ≤ c.toNat ∧ c.toNat ≤ 57 then some (c.toNat - 48) else none

/-- Accumulating left-to-right read of a decimal digit string; fails on
any non-digit character. -/
def decDigits? : List Char → ℕ → Option ℕ
  | [], acc => some acc
  | c :: cs, acc =>
    match digitVal? c with
    | some d => decDigits? cs (10 * acc + d)
    | none => none

/-- Split a character list at the first dot: the part before it, and
(when a dot occurs) the part after it. -/
def splitDot : List Char → List Char × Option (List Char)
  | [] => ([], none)
  | c :: cs =>
    if c = '.' then ([], some cs)
    else
      let (a, b) := splitDot cs
      (c :: a, b)

/-- Numeric value of an unsigned decimal literal (integer part, optional
fractional part, at least one digit in total); `none` when malformed. -/
def floatChars? (l : List Char) : Option ℚ :=
  let (intPart, fracPart) := splitDot l
  match fracPart with
  | none =>
    if intPart = [] then none
    else (decDigits? intPart 0).map (fun n => (n : ℚ))
  | some f =>
    if intPart = [] ∧ f = [] then none
    else
      match decDigits? intPart 0, decDigits? f 0 with
      | some n, some m => some ((n : ℚ) + (m : ℚ) / (10 : ℚ) ^ f.length)
      | _, _ => none

/-- Model of the Python builtin `float` on plain decimal literals
(optional sign, digits, optional fractional part), the only shape the
program's CSV inputs use; any other string is a parse failure
(`ValueError`), embedded as `none`. -/
def floatOfString (s : String) : Option ℚ :=
  match s.toList with
  | '-' :: rest => (floatChars? rest).map (fun q => -q)
  | '+' :: rest => floatChars? rest
  | l => floatChars? l

/-- `parse_float`: a falsy cell (`None` or the empty string) yields 0,
any other cell goes through `float` and may fail. -/
def parse_float : Option String → Option ℚ
  | none => some 0
  | some s => if s = "" then some 0 else floatOfString s

/-- The `Plan` class: one health-insurance plan, as built by `__init__`.
`name` is `Option String` because the Python default is `None`; the
numeric defaults mirror the keyword defaults of `__init__`. -/
structure Plan where
  monthly_premium : ℚ
  deductible : ℚ
  out_of_pocket_max : ℚ
  coinsurance : ℚ := 0
  employer_hsa_contribution : ℚ := 0
  employee_hsa_contribution : ℚ := 0
  copay : ℚ := 0
  name : Option String := none
deriving DecidableEq

/-- `Plan.from_csv`: build a plan from a row, reading the columns in the
source's keyword-argument order; a missing column (`KeyError`) or a
malformed numeric cell (`ValueError` in `float`) makes the whole
construction fail. -/
def Plan.from_csv (line : Row) : Option Plan :=
  (List.lookup "name" line).bind fun name =>
  ((List.lookup "monthly_premium" line).bind parse_float).bind fun monthly_premium =>
  ((List.lookup "deductible" line).bind parse_float).bind fun deductible =>
  ((List.lookup "out_of_pocket_max" line).bind parse_float).bind fun out_of_pocket_max =>
  ((List.lookup "coinsurance" line).bind parse_float).bind fun coinsurance =>
  ((List.lookup "employer_hsa_contribution" line).bind parse_float).bind fun employer_hsa_contribution =>
  ((List.lookup "employee_hsa_contribution" line).bind parse_float).bind fun employee_hsa_contribution =>
  ((List.lookup "copay" line).bind parse_float).bind fun copay =>
  some { name := name, monthly_premium := monthly_premium, deductible := deductible,
         out_of_pocket_max := out_of_pocket_max, coinsurance := coinsurance,
         employer_hsa_contribution := employer_hsa_contribution,
         employee_hsa_contribution := employee_hsa_contribution, copay := copay }

/-- `Plan.get_premium`: `monthly_premium * months`. -/
def Plan.get_premium (self : Plan) (months : ℚ) : ℚ :=
  self.monthly_premium * months

/-- `Plan.get_tax_savings`: `employee_hsa_contribution * tax_bracket`. -/
def Plan.get_tax_savings (self : Plan) (tax_bracket : ℚ) : ℚ :=
  self.employee_hsa_contribution * tax_bracket

/-- `Plan.get_expenses`: copays plus bills below the deductible, otherwise
deductible plus coinsurance share, clamped at the out-of-pocket maximum. -/
def Plan.get_expenses (self : Plan) (total_expenses : ℚ) (visits : ℚ := 0) : ℚ :=
  let copays := visits * self.copay
  if copays + total_expenses < self.deductible then
    copays + total_expenses
  else
    let expenses := copays + self.deductible +
      (total_expenses - copays - self.deductible) * self.coinsurance
    if expenses > self.out_of_pocket_max then self.out_of_pocket_max else expenses

/-- `Plan.get_actual_cost`: premium plus insured-borne expenses, minus the
employer HSA contribution and the tax savings on the employee HSA
contribution. -/
def Plan.get_actual_cost (self : Plan) (total_expenses : ℚ) (months : ℚ := 12)
    (visits : ℚ := 0) (tax_bracket : ℚ := 0) : ℚ :=
  self.get_premium months + self.get_expenses total_expenses visits -
    self.employer_hsa_contribution - self.get_tax_savings tax_bracket

/-- Reference cost formula, written from the spec's words (section 4.1 of
the spec): `E` is `visits*copay + total_expenses` when that sum is below
the deductible, otherwise the post-deductible formula clamped with `min`
at `out_of_pocket_max`; the result is
`monthly_premium * months + E - employer_hsa_contribution
 - employee_hsa_contribution * tax_bracket`. -/
def ref_actual_cost (p : Plan) (total_expenses months visits tax_bracket : ℚ) : ℚ :=
  let E :=
    if visits * p.copay + total_expenses < p.deductible then
      visits * p.copay + total_expenses
    else
      min (visits * p.copay + p.deductible +
            (total_expenses - visits * p.copay - p.deductible) * p.coinsurance)
        p.out_of_pocket_max
  p.monthly_premium * months + E - p.employer_hsa_contribution -
    p.employee_hsa_contribution * tax_bracket

/-- State-passing embedding of the method `get_premium`: the body reads
`self.monthly_premium` and assigns nothing to `self`. -/
def Plan.get_premiumS (self : Plan) (months : ℚ) : ℚ × Plan :=
  (self.monthly_premium * months, self)

/-- State-passing embedding of the method `get_tax_savings`: the body
reads `self.employee_hsa_contribution` and assigns nothing to `self`. -/
def Plan.get_tax_savingsS (self : Plan) (tax_bracket : ℚ) : ℚ × Plan :=
  (self.employee_hsa_contribution * tax_bracket, self)

/-- State-passing embedding of the method `get_expenses`: the locals
`copays` and `expenses` are rebound, but no attribute of `self` is
assigned. -/
def Plan.get_expensesS (self : Plan) (total_expenses : ℚ) (visits : ℚ := 0) :
    ℚ × Plan :=
  let copays := visits * self.copay
  if copays + total_expenses < self.deductible then
    (copays + total_expenses, self)
  else
    let expenses := copays + self.deductible +
      (total_expenses - copays - self.deductible) * self.coinsurance
    if expenses > self.out_of_pocket_max then (self.out_of_pocket_max, self)
    else (expenses, self)

/-- State-passing embedding of the method `get_actual_cost`, threading the
plan state through the three method calls in the source's evaluation
order. -/
def Plan.get_actual_costS (self : Plan) (total_expenses : ℚ) (months : ℚ := 12)
    (visits : ℚ := 0) (tax_bracket : ℚ := 0) : ℚ × Plan :=
  let (premium, s1) := self.get_premiumS months
  let (expenses, s2) := s1.get_expensesS total_expenses visits
  let (tax_savings, s3) := s2.get_tax_savingsS tax_bracket
  (premium + expenses - s2.employer_hsa_contribution - tax_savings, s3)

/-- The seven numeric columns a plan is built from. -/
inductive NumField
  | monthly_premium | deductible | out_of_pocket_max | coinsurance
  | employer_hsa_contribution | employee_hsa_contribution | copay
deriving DecidableEq

/-- The CSV column name of a numeric field. -/
def NumField.key : NumField → String
  | .monthly_premium => "monthly_premium"
  | .deductible => "deductible"
  | .out_of_pocket_max => "out_of_pocket_max"
  | .coinsurance => "coinsurance"
  | .employer_hsa_contribution => "employer_hsa_contribution"
  | .employee_hsa_contribution => "employee_hsa_contribution"
  | .copay => "copay"

/-- The plan attribute a numeric field is stored in. -/
def NumField.get (p : Plan) : NumField → ℚ
  | .monthly_premium => p.monthly_premium
  | .deductible => p.deductible
  | .out_of_pocket_max => p.out_of_pocket_max
  | .coinsurance => p.coinsurance
  | .employer_hsa_contribution => p.employer_hsa_contribution
  | .employee_hsa_contribution => p.employee_hsa_contribution
  | .copay => p.copay

/-- The example plan of spec section 8: premium 400/mo, deductible 2000,
coinsurance 0.20, out-of-pocket max 8000, everything else 0. -/
def examplePlan : Plan :=
  { monthly_premium := 400, deductible := 2000, out_of_pocket_max := 8000,
    coinsurance := 1/5, employer_hsa_contribution := 0,
    employee_hsa_contribution := 0, copay := 0, name := none }

/-- A degenerate plan whose deductible (100) exceeds its out-of-pocket
maximum (50), with zero coinsurance: it refutes C4 and C5 as stated. -/
def degeneratePlan : Plan :=
  { monthly_premium := 0, deductible := 100, out_of_pocket_max := 50,
    coinsurance := 0, employer_hsa_contribution := 0,
    employee_hsa_contribution := 0, copay := 0, name := none }

/-- The plan refuting C10: deductible 20, out-of-pocket max 100,
coinsurance 1, copay 10 — all non-negative, coinsurance in [0,1],
deductible below the out-of-pocket max. -/
def copayPlan : Plan :=
  { monthly_premium := 0, deductible := 20, out_of_pocket_max := 100,
    coinsurance := 1, employer_hsa_contribution := 0,
    employee_hsa_contribution := 0, copay := 10, name := none }

/-- A row in the alternate single-field `hsa_contribution` schema: the
header has `hsa_contribution` but not the two split HSA columns. -/
def altSchemaRow : Row :=
  [("name", some "Alt"), ("monthly_premium", some ""), ("deductible", some ""),
   ("copay", some ""), ("coinsurance", some ""), ("out_of_pocket_max", some ""),
   ("hsa_contribution", some "100")]

/-- A second row in the alternate single-field schema, with only a name
and the single HSA column. -/
def altSchemaRow2 : Row :=
  [("name", some "Alt2"), ("hsa_contribution", some "100")]

/-- A full two-field-schema row whose numeric cells are all empty and
whose `employee_hsa_contribution` cell is a `None` value (short row). -/
def emptyValRow : Row :=
  [("name", some "Empty"), ("monthly_premium", some ""), ("deductible", some ""),
   ("out_of_pocket_max", some ""), ("coinsurance", some ""),
   ("employer_hsa_contribution", some ""),
   ("employee_hsa_contribution", (none : Option String)), ("copay", some "")]

/-- The plan built from `emptyValRow`: every numeric attribute 0. -/
def zeroPlan : Plan :=
  { monthly_premium := 0, deductible := 0, out_of_pocket_max := 0,
    coinsurance := 0, employer_hsa_contribution := 0,
    employee_hsa_contribution := 0, copay := 0, name := some "Empty" }

/-- Binding an option into a constantly failing continuation fails. -/
theorem bind_none_right {α β : Type} (o : Option α) :
    o.bind (fun _ => (none : Option β)) = none := by
  cases o <;> rfl

/-- A looked-up cell that is `None` or empty parses to 0: if the lookup
for key `k` also appears in a successful `parse_float` chain with value
`q`, then `q = 0`. -/
theorem parsed_cell_zero {r : Row} {k : String} {q : ℚ}
    (hx : ∃ a, List.lookup k r = some a ∧ parse_float a = some q)
    (hf : List.lookup k r = some none ∨ List.lookup k r = some (some "")) :
    q = 0 := by
  obtain ⟨a, ha, hpa⟩ := hx
  rcases hf with hf | hf <;> rw [ha] at hf <;>
    injection hf with hf <;> subst hf <;>
    simpa [parse_float] using hpa.symm

/-- Monotonicity of `get_expenses` in `total_expenses`, given non-negative
coinsurance, deductible at most the out-of-pocket max, and the copay-total
condition `2*(visits*copay)*coinsurance ≤ visits*copay` that rules out the
downward jump at the deductible. -/
theorem get_expenses_mono (p : Plan) (v e1 e2 : ℚ)
    (hc : 0 ≤ p.coinsurance)
    (hdM : p.deductible ≤ p.out_of_pocket_max)
    (hk : 2 * (v * p.copay) * p.coinsurance ≤ v * p.copay)
    (hle : e1 ≤ e2) :
    p.get_expenses e1 v ≤ p.get_expenses e2 v := by
  have hg : (e1 - v * p.copay - p.deductible) * p.coinsurance ≤
      (e2 - v * p.copay - p.deductible) * p.coinsurance :=
    mul_le_mul_of_nonneg_right (by linarith) hc
  unfold Plan.get_expenses
  dsimp only
  split_ifs <;>
    first
      | linarith
      | nlinarith [mul_nonneg
          (show (0 : ℚ) ≤ v * p.copay + e2 - p.deductible by linarith) hc]

/-- C1: for every plan and all numeric inputs, `get_actual_cost` equals the
spec's reference formula (pre-deductible pass-through, else coinsurance
formula clamped by `min` at the out-of-pocket max, plus premium, minus HSA
contribution and tax savings). -/
theorem c1_get_actual_cost_eq_ref (p : Plan) (t m v tb : ℚ) :
    p.get_actual_cost t m v tb = ref_actual_cost p t m v tb := by
  unfold Plan.get_actual_cost ref_actual_cost Plan.get_premium
    Plan.get_tax_savings Plan.get_expenses
  dsimp only
  split
  · rfl
  · rcases le_or_lt (v * p.copay + p.deductible +
      (t - v * p.copay - p.deductible) * p.coinsurance) p.out_of_pocket_max with h | h
    · rw [min_eq_left h, if_neg (not_lt.mpr h)]
    · rw [min_eq_right h.le, if_pos h]

/-- C2: on the example plan (400/mo premium, 2000 deductible, 0.20
coinsurance, 8000 out-of-pocket max) over 12 months with no visits and no
tax bracket, the cost at bills 0, 2000 and 32000 is 4800, 6800 and 12800. -/
theorem c2_example_plan_costs :
    examplePlan.get_actual_cost 0 12 0 0 = 4800 ∧
    examplePlan.get_actual_cost 2000 12 0 0 = 6800 ∧
    examplePlan.get_actual_cost 32000 12 0 0 = 12800 := by
  refine ⟨?_, ?_, ?_⟩ <;>
    norm_num [examplePlan, Plan.get_actual_cost, Plan.get_premium,
      Plan.get_tax_savings, Plan.get_expenses]

/-- C3: below the deductible (after copays), cost grows 1:1 with expenses:
for any plan, with fixed months, visits, tax bracket, and totals
`e1 ≤ e2` both keeping `visits*copay + e` below the deductible, the cost
difference equals `e2 - e1`. -/
theorem c3_linear_below_deductible (p : Plan) (m v tb e1 e2 : ℚ)
    (hle : e1 ≤ e2)
    (h1 : v * p.copay + e1 < p.deductible)
    (h2 : v * p.copay + e2 < p.deductible) :
    p.get_actual_cost e2 m v tb - p.get_actual_cost e1 m v tb = e2 - e1 := by
  unfold Plan.get_actual_cost Plan.get_premium Plan.get_tax_savings
    Plan.get_expenses
  rw [if_pos h1, if_pos h2]
  ring

/-- Witness for C3 on the example plan: 500 and 1500 are both below the
2000 deductible, and the costs differ by exactly 1000. -/
theorem c3_witness :
    examplePlan.get_actual_cost 1500 12 0 0 -
      examplePlan.get_actual_cost 500 12 0 0 = 1500 - 500 :=
  c3_linear_below_deductible examplePlan 12 0 0 500 1500
    (by norm_num) (by norm_num [examplePlan]) (by norm_num [examplePlan])

/-- Counterexample to C4 as stated: on `degeneratePlan` (deductible 100,
out-of-pocket max 50, coinsurance 0), with `visits = 0`, both `e1 = 0` and
`e2 = 30` make the post-deductible formula
`visits*copay + deductible + (e - visits*copay - deductible)*coinsurance`
equal 100 ≥ 50 = out_of_pocket_max, yet the costs (0 and 30) differ:
both totals fall in the pre-deductible branch, so the clamp never runs. -/
theorem c4_counterexample :
    degeneratePlan.out_of_pocket_max ≤
      0 * degeneratePlan.copay + degeneratePlan.deductible +
        ((0 : ℚ) - 0 * degeneratePlan.copay - degeneratePlan.deductible) *
          degeneratePlan.coinsurance ∧
    degeneratePlan.out_of_pocket_max ≤
      0 * degeneratePlan.copay + degeneratePlan.deductible +
        ((30 : ℚ) - 0 * degeneratePlan.copay - degeneratePlan.deductible) *
          degeneratePlan.coinsurance ∧
    degeneratePlan.get_actual_cost 0 0 0 0 ≠
      degeneratePlan.get_actual_cost 30 0 0 0 := by
  refine ⟨by norm_num [degeneratePlan], by norm_num [degeneratePlan], ?_⟩
  norm_num [degeneratePlan, Plan.get_actual_cost, Plan.get_premium,
    Plan.get_tax_savings, Plan.get_expenses]

/-- C4 amended: the constancy additionally needs both expense totals to be
in the post-deductible branch (`visits*copay + e ≥ deductible`); then, for
any plan, whenever the post-deductible formula reaches or exceeds the
out-of-pocket max at both totals, the two costs are equal (both clamped at
the out-of-pocket maximum). -/
theorem c4_constant_after_oop_max (p : Plan) (m v tb e1 e2 : ℚ)
    (hd1 : p.deductible ≤ v * p.copay + e1)
    (hd2 : p.deductible ≤ v * p.copay + e2)
    (h1 : p.out_of_pocket_max ≤
      v * p.copay + p.deductible +
        (e1 - v * p.copay - p.deductible) * p.coinsurance)
    (h2 : p.out_of_pocket_max ≤
      v * p.copay + p.deductible +
        (e2 - v * p.copay - p.deductible) * p.coinsurance) :
    p.get_actual_cost e1 m v tb = p.get_actual_cost e2 m v tb := by
  unfold Plan.get_actual_cost Plan.get_premium Plan.get_tax_savings
    Plan.get_expenses
  rw [if_neg (not_lt.mpr hd1), if_neg (not_lt.mpr hd2)]
  dsimp only
  rcases lt_or_eq_of_le h1 with h1' | h1'
  · rcases lt_or_eq_of_le h2 with h2' | h2'
    · rw [if_pos h1', if_pos h2']
    · rw [if_pos h1', if_neg (by rw [← h2']; exact lt_irrefl _), ← h2']
  · rcases lt_or_eq_of_le h2 with h2' | h2'
    · rw [if_neg (by rw [← h1']; exact lt_irrefl _), if_pos h2', ← h1']
    · rw [if_neg (by rw [← h1']; exact lt_irrefl _),
        if_neg (by rw [← h2']; exact lt_irrefl _), ← h1', ← h2']

/-- Witness for the amended C4 on the example plan: at totals 32000 and
50000 the post-deductible formula gives 8000 and 11600, both at or above
the 8000 out-of-pocket max, and the two costs agree. -/
theorem c4_witness :
    examplePlan.get_actual_cost 32000 12 0 0 =
      examplePlan.get_actual_cost 50000 12 0 0 :=
  c4_constant_after_oop_max examplePlan 12 0 0 32000 50000
    (by norm_num [examplePlan]) (by norm_num [examplePlan])
    (by norm_num [examplePlan]) (by norm_num [examplePlan])

/-- Counterexample to C5 as stated: `degeneratePlan` has all parameters
non-negative, yet with non-negative inputs `total_expenses = 60`,
`visits = 0` the insured-borne expenses are 60, above the out-of-pocket
max of 50 (the pre-deductible branch is not clamped, and here the
deductible exceeds the out-of-pocket max). -/
theorem c5_counterexample :
    0 ≤ degeneratePlan.monthly_premium ∧ 0 ≤ degeneratePlan.deductible ∧
    0 ≤ degeneratePlan.out_of_pocket_max ∧ 0 ≤ degeneratePlan.coinsurance ∧
    0 ≤ degeneratePlan.employer_hsa_contribution ∧
    0 ≤ degeneratePlan.employee_hsa_contribution ∧
    0 ≤ degeneratePlan.copay ∧
    degeneratePlan.out_of_pocket_max < degeneratePlan.get_expenses 60 0 := by
  norm_num [degeneratePlan, Plan.get_expenses]

/-- C5 amended: for every plan with non-negative parameters whose
deductible does not exceed its out-of-pocket maximum, and all non-negative
`total_expenses` and `visits`, the insured-borne expenses
`get_expenses total_expenses visits` never exceed `out_of_pocket_max`. -/
theorem c5_expenses_le_oop_max (p : Plan) (t v : ℚ)
    (hmp : 0 ≤ p.monthly_premium) (hd : 0 ≤ p.deductible)
    (hM : 0 ≤ p.out_of_pocket_max) (hc : 0 ≤ p.coinsurance)
    (h1 : 0 ≤ p.employer_hsa_contribution)
    (h2 : 0 ≤ p.employee_hsa_contribution) (hcp : 0 ≤ p.copay)
    (hdM : p.deductible ≤ p.out_of_pocket_max)
    (ht : 0 ≤ t) (hv : 0 ≤ v) :
    p.get_expenses t v ≤ p.out_of_pocket_max := by
  unfold Plan.get_expenses
  dsimp only
  split
  · linarith
  · split
    · exact le_rfl
    · linarith

/-- Witness for the amended C5 on the example plan at totals 5000 with 0
visits: the expenses stay at or below the 8000 out-of-pocket max. -/
theorem c5_witness : examplePlan.get_expenses 5000 0 ≤ examplePlan.out_of_pocket_max :=
  c5_expenses_le_oop_max examplePlan 5000 0
    (by norm_num [examplePlan]) (by norm_num [examplePlan])
    (by norm_num [examplePlan]) (by norm_num [examplePlan])
    (by norm_num [examplePlan]) (by norm_num [examplePlan])
    (by norm_num [examplePlan]) (by norm_num [examplePlan])
    (by norm_num) (by norm_num)

/-- Counterexample to C6 as stated: a row in the alternate single-field
`hsa_contribution` schema (with every other column present) is rejected by
`from_csv` — looking up the absent `employer_hsa_contribution` column
raises `KeyError` — instead of producing a plan. -/
theorem c6_counterexample : Plan.from_csv altSchemaRow = none := by decide

/-- C6 amended: `from_csv` accepts only the two-field HSA schema: any row
whose header lacks the `employer_hsa_contribution` column — in particular
a row in the alternate single-field `hsa_contribution` schema — fails
(`KeyError`) rather than producing a plan. -/
theorem c6_two_field_schema_required (r : Row)
    (h : List.lookup "employer_hsa_contribution" r = none) :
    Plan.from_csv r = none := by
  simp only [Plan.from_csv, h, Option.none_bind, bind_none_right]

/-- Witness for the amended C6: the row with only `name` and
`hsa_contribution` columns is rejected. -/
theorem c6_witness : Plan.from_csv altSchemaRow2 = none :=
  c6_two_field_schema_required altSchemaRow2 (by decide)

/-- C7: if `from_csv` builds a plan from a row in which some numeric
field's cell is absent (`None`) or empty, that numeric attribute of the
built plan is 0. -/
theorem c7_missing_numeric_defaults_zero (r : Row) (p : Plan) (f : NumField)
    (hp : Plan.from_csv r = some p)
    (hf : List.lookup f.key r = some none ∨ List.lookup f.key r = some (some "")) :
    f.get p = 0 := by
  simp only [Plan.from_csv, Option.bind_eq_some, Option.some.injEq] at hp
  obtain ⟨nm, hn, mp, hmp, dd, hdd, oo, hoo, cc, hcc, er, her, ee, hee, cp, hcp, hPlan⟩ := hp
  subst hPlan
  cases f
  case monthly_premium => exact parsed_cell_zero hmp hf
  case deductible => exact parsed_cell_zero hdd hf
  case out_of_pocket_max => exact parsed_cell_zero hoo hf
  case coinsurance => exact parsed_cell_zero hcc hf
  case employer_hsa_contribution => exact parsed_cell_zero her hf
  case employee_hsa_contribution => exact parsed_cell_zero hee hf
  case copay => exact parsed_cell_zero hcp hf

/-- Witness for C7: `emptyValRow` has a `None` cell for
`employee_hsa_contribution`, `from_csv` builds `zeroPlan` from it, and the
attribute is 0. -/
theorem c7_witness : NumField.get zeroPlan NumField.employee_hsa_contribution = 0 :=
  c7_missing_numeric_defaults_zero emptyValRow zeroPlan
    NumField.employee_hsa_contribution (by decide) (Or.inl (by decide))

/-- C8: `get_actual_cost` is total: for every plan and all rational
arguments — including negative or out-of-range values — it returns a
number; the computation has no failing or undefined case. -/
theorem c8_get_actual_cost_total :
    ∀ (p : Plan) (t m v tb : ℚ), ∃ r : ℚ, p.get_actual_cost t m v tb = r :=
  fun _ _ _ _ _ => ⟨_, rfl⟩

/-- C9: evaluating any of `get_premium`, `get_tax_savings`, `get_expenses`
or `get_actual_cost` leaves the plan state — hence every attribute —
unchanged: a plan is never mutated after construction. -/
theorem c9_no_mutation (p : Plan) (t m v tb : ℚ) :
    (p.get_premiumS m).2 = p ∧ (p.get_tax_savingsS tb).2 = p ∧
    (p.get_expensesS t v).2 = p ∧ (p.get_actual_costS t m v tb).2 = p := by
  have hexp : (p.get_expensesS t v).2 = p := by
    unfold Plan.get_expensesS
    dsimp only
    split
    · rfl
    · split <;> rfl
  refine ⟨rfl, rfl, hexp, ?_⟩
  unfold Plan.get_actual_costS Plan.get_premiumS Plan.get_tax_savingsS
  rcases hE : p.get_expensesS t v with ⟨q, s⟩
  rw [hE] at hexp
  show (match p.get_expensesS t v with
    | (expenses, s2) =>
      (p.monthly_premium * m + expenses - s2.employer_hsa_contribution -
        s2.employee_hsa_contribution * tb, s2)).2 = p
  rw [hE]
  exact hexp

/-- Counterexample to C10 as stated: `copayPlan` satisfies every
hypothesis of C10 (non-negative parameters, coinsurance in [0,1],
deductible ≤ out-of-pocket max), yet with one visit the cost at bills 10
is strictly below the cost at bills 9 (19 drops to 10): crossing the
deductible, the copay is counted once toward the threshold and subtracted
again in the coinsurance term, so the paid amount jumps down. -/
theorem c10_counterexample :
    0 ≤ copayPlan.monthly_premium ∧ 0 ≤ copayPlan.deductible ∧
    0 ≤ copayPlan.out_of_pocket_max ∧ 0 ≤ copayPlan.coinsurance ∧
    0 ≤ copayPlan.employer_hsa_contribution ∧
    0 ≤ copayPlan.employee_hsa_contribution ∧ 0 ≤ copayPlan.copay ∧
    copayPlan.coinsurance ≤ 1 ∧
    copayPlan.deductible ≤ copayPlan.out_of_pocket_max ∧
    (0 : ℚ) ≤ 9 ∧ (9 : ℚ) ≤ 10 ∧
    copayPlan.get_actual_cost 10 12 1 0 < copayPlan.get_actual_cost 9 12 1 0 := by
  refine ⟨by norm_num [copayPlan], by norm_num [copayPlan],
    by norm_num [copayPlan], by norm_num [copayPlan], by norm_num [copayPlan],
    by norm_num [copayPlan], by norm_num [copayPlan], by norm_num [copayPlan],
    by norm_num [copayPlan], by norm_num, by norm_num, ?_⟩
  norm_num [copayPlan, Plan.get_actual_cost, Plan.get_premium,
    Plan.get_tax_savings, Plan.get_expenses]

/-- C10 amended: under the stated hypotheses (non-negative plan
parameters, coinsurance in [0,1], deductible ≤ out-of-pocket max,
non-negative expense totals) plus the additional condition
`2*(visits*copay)*coinsurance ≤ visits*copay` (no copay total, or
coinsurance at most 1/2), `get_actual_cost` is monotone non-decreasing in
`total_expenses`. -/
theorem c10_monotone_in_expenses (p : Plan) (m v tb e1 e2 : ℚ)
    (hmp : 0 ≤ p.monthly_premium) (hd : 0 ≤ p.deductible)
    (hM : 0 ≤ p.out_of_pocket_max) (hc : 0 ≤ p.coinsurance)
    (h1 : 0 ≤ p.employer_hsa_contribution)
    (h2 : 0 ≤ p.employee_hsa_contribution) (hcp : 0 ≤ p.copay)
    (hc1 : p.coinsurance ≤ 1)
    (hdM : p.deductible ≤ p.out_of_pocket_max)
    (he1 : 0 ≤ e1) (hle : e1 ≤ e2)
    (hk : 2 * (v * p.copay) * p.coinsurance ≤ v * p.copay) :
    p.get_actual_cost e1 m v tb ≤ p.get_actual_cost e2 m v tb := by
  have key := get_expenses_mono p v e1 e2 hc hdM hk hle
  unfold Plan.get_actual_cost Plan.get_premium Plan.get_tax_savings
  linarith

/-- Witness for the amended C10 on the example plan (zero copay, so the
extra condition holds trivially): the cost at bills 500 is at most the
cost at bills 40000. -/
theorem c10_witness :
    examplePlan.get_actual_cost 500 12 0 0 ≤
      examplePlan.get_actual_cost 40000 12 0 0 :=
  c10_monotone_in_expenses examplePlan 12 0 0 500 40000
    (by norm_num [examplePlan]) (by norm_num [examplePlan])
    (by norm_num [examplePlan]) (by norm_num [examplePlan])
    (by norm_num [examplePlan]) (by norm_num [examplePlan])
    (by norm_num [examplePlan]) (by norm_num [examplePlan])
    (by norm_num [examplePlan]) (by norm_num) (by norm_num)
    (by norm_num [examplePlan])
